import Mathlib

/-!
Shallow embedding of the nutrition-tracker core logic: date resolution,
nutrient aggregation with uncertainty bands, the Mifflin-St Jeor BMR/TDEE
calculator, compliance thresholds, and the manual-override PATCH handler.
JavaScript numbers are modelled as rationals; `Math.round` is modelled by
its ECMAScript semantics (round half toward positive infinity).
-/

namespace Nutrition

/-- ECMAScript Math.round: floor of x + 1/2 (half rounds toward +infinity). -/
def jsRound (q : ℚ) : ℚ := (⌊q + 1/2⌋ : ℤ)

/-- Rounding to one decimal place as done in the code: Math.round(x * 10) / 10. -/
def round1 (q : ℚ) : ℚ := jsRound (q * 10) / 10

/-- Biological sex, the two-branch selector of the BMR formula. -/
inductive Sex where
  | male
  | female
deriving DecidableEq, Repr

/-- Result record of calculateBMR (tdee-calculator source). -/
structure BMRResult where
  bmr : ℚ
  bmr_low : ℚ
  bmr_high : ℚ
deriving DecidableEq, Repr

/-- BMR_UNCERTAINTY constant from the source: 10% uncertainty on BMR. -/
def BMR_UNCERTAINTY : ℚ := 10 / 100

/-- calculateBMR from the tdee-calculator source: Mifflin-St Jeor point
estimate, rounded, with low/high at ±10% of the unrounded estimate, each
rounded independently. -/
def calculateBMR (weightKg heightCm ageYears : ℚ) (sex : Sex) : BMRResult :=
  let bmr : ℚ :=
    match sex with
    | .male => (10 * weightKg) + (625/100 * heightCm) - (5 * ageYears) + 5
    | .female => (10 * weightKg) + (625/100 * heightCm) - (5 * ageYears) - 161
  { bmr := jsRound bmr
    bmr_low := jsRound (bmr * (1 - BMR_UNCERTAINTY))
    bmr_high := jsRound (bmr * (1 + BMR_UNCERTAINTY)) }

/-- TDEECalculation record (types/nutrition source). -/
structure TDEECalculation where
  bmr : ℚ
  bmr_low : ℚ
  bmr_high : ℚ
  tdee : ℚ
  tdee_low : ℚ
  tdee_high : ℚ
  target_calories : ℚ
  target_calories_low : ℚ
  target_calories_high : ℚ
  protein_target_g : ℚ
deriving DecidableEq, Repr

/-- calculateTDEE from the tdee-calculator source: point and band endpoints
combined pairwise with the activity multipliers, then the calorie deficit
subtracted from each. -/
def calculateTDEE (bmr bmrLow bmrHigh : ℚ)
    (activityMultiplier activityMultiplierLow activityMultiplierHigh : ℚ)
    (calorieDeficit : ℚ) : TDEECalculation :=
  let tdee := jsRound (bmr * activityMultiplier)
  let tdeeLow := jsRound (bmrLow * activityMultiplierLow)
  let tdeeHigh := jsRound (bmrHigh * activityMultiplierHigh)
  { bmr := bmr
    bmr_low := bmrLow
    bmr_high := bmrHigh
    tdee := tdee
    tdee_low := tdeeLow
    tdee_high := tdeeHigh
    target_calories := jsRound (tdee - calorieDeficit)
    target_calories_low := jsRound (tdeeLow - calorieDeficit)
    target_calories_high := jsRound (tdeeHigh - calorieDeficit)
    protein_target_g := 0 }

/-- ActivityLevelOption record (types/nutrition source). -/
structure ActivityLevelOption where
  id : Nat
  label : String
  multiplier : ℚ
  multiplier_low : ℚ
  multiplier_high : ℚ
deriving DecidableEq, Repr

/-- DEFAULT_ACTIVITY_LEVELS from the tdee-calculator source (descriptions
omitted; they are display strings only). -/
def DEFAULT_ACTIVITY_LEVELS : List ActivityLevelOption :=
  [ { id := 1, label := "Rest day", multiplier := 12/10,
      multiplier_low := 115/100, multiplier_high := 125/100 },
    { id := 2, label := "Light activity", multiplier := 1375/1000,
      multiplier_low := 13/10, multiplier_high := 145/100 },
    { id := 3, label := "Moderate activity", multiplier := 155/100,
      multiplier_low := 15/10, multiplier_high := 16/10 },
    { id := 4, label := "Active day", multiplier := 1725/1000,
      multiplier_low := 165/100, multiplier_high := 18/10 },
    { id := 5, label := "Very active", multiplier := 19/10,
      multiplier_low := 18/10, multiplier_high := 2 } ]

/-- The body-stat slice of UserSettings consumed by calculateFullTDEE.
Fields that may be null in the database are Options. -/
structure UserSettingsCore where
  weight_kg : Option ℚ
  height_cm : Option ℚ
  age_years : Option ℚ
  sex : Option Sex
  calorie_deficit : ℚ
deriving DecidableEq, Repr

/-- JavaScript truthiness of a nullable number: null and 0 are falsy. -/
def truthyNum (o : Option ℚ) : Bool :=
  match o with
  | none => false
  | some x => x ≠ 0

/-- calculateFullTDEE from the tdee-calculator source: early null return on
any falsy body stat (`!settings.weight_kg` etc.), otherwise calculateBMR
then calculateTDEE, with protein target 1.6 g per kg of body weight. -/
def calculateFullTDEE (settings : UserSettingsCore)
    (activityLevel : ActivityLevelOption) : Option TDEECalculation :=
  if truthyNum settings.weight_kg = false ∨ truthyNum settings.height_cm = false ∨
      truthyNum settings.age_years = false ∨ settings.sex = none then
    none
  else
    match settings.weight_kg, settings.height_cm, settings.age_years, settings.sex with
    | some w, some h, some a, some s =>
      let b := calculateBMR w h a s
      let tdeeCalc := calculateTDEE b.bmr b.bmr_low b.bmr_high
        activityLevel.multiplier activityLevel.multiplier_low activityLevel.multiplier_high
        settings.calorie_deficit
      some { tdeeCalc with protein_target_g := jsRound (w * 16/10) }
    | _, _, _, _ => none

/-- getActivityLevelById from the tdee-calculator source. -/
def getActivityLevelById (i : Nat) : Option ActivityLevelOption :=
  DEFAULT_ACTIVITY_LEVELS.find? (fun level => level.id = i)

/-! ### Proleptic Gregorian calendar arithmetic

Used to model the date handling of the date-fns / date-fns-tz library
functions the source calls (parse validity, toZonedTime, format
yyyy-MM-dd). Timestamps are seconds since the Unix epoch; civil dates are
year/month/day. The day/date conversions are the standard Gregorian
algorithms. -/

/-- Gregorian leap-year rule. -/
def isLeapYear (y : ℤ) : Bool :=
  y.emod 4 = 0 ∧ (y.emod 100 ≠ 0 ∨ y.emod 400 = 0)

/-- Number of days in a Gregorian month. -/
def daysInMonth (y : ℤ) (m : Nat) : Nat :=
  match m with
  | 1 => 31 | 3 => 31 | 5 => 31 | 7 => 31 | 8 => 31 | 10 => 31 | 12 => 31
  | 4 => 30 | 6 => 30 | 9 => 30 | 11 => 30
  | 2 => if isLeapYear y then 29 else 28
  | _ => 0

/-- Civil calendar date. -/
structure CivilDate where
  year : ℤ
  month : ℤ
  day : ℤ
deriving DecidableEq, Repr

/-- Days since 1970-01-01 of a civil date (standard era-based algorithm). -/
def daysFromCivil (y m d : ℤ) : ℤ :=
  let y2 := if m ≤ 2 then y - 1 else y
  let era := y2.fdiv 400
  let yoe := y2 - era * 400
  let mp := if m ≤ 2 then m + 9 else m - 3
  let doy := (153 * mp + 2).fdiv 5 + d - 1
  let doe := yoe * 365 + yoe.fdiv 4 - yoe.fdiv 100 + doy
  era * 146097 + doe - 719468

/-- Civil date of a day count since 1970-01-01 (inverse of daysFromCivil). -/
def civilFromDays (z : ℤ) : CivilDate :=
  let z2 := z + 719468
  let era := z2.fdiv 146097
  let doe := z2 - era * 146097
  let yoe := (doe - doe.fdiv 1460 + doe.fdiv 36524 - doe.fdiv 146096).fdiv 365
  let y := yoe + era * 400
  let doy := doe - (365 * yoe + yoe.fdiv 4 - yoe.fdiv 100)
  let mp := (5 * doy + 2).fdiv 153
  let d := doy - (153 * mp + 2).fdiv 5 + 1
  let m := if mp < 10 then mp + 3 else mp - 9
  { year := if m ≤ 2 then y + 1 else y, month := m, day := d }

/-- Day of week of a day count (0 = Sunday; day 0, 1970-01-01, was a Thursday). -/
def weekday (z : ℤ) : ℤ := (z + 4).emod 7

/-- Day count of the first Sunday on or after day z. -/
def sundayOnOrAfter (z : ℤ) : ℤ := z + (7 - weekday z).emod 7

/-- UTC offset in seconds of America/New_York at a given instant, under the
post-2007 United States DST rule of the IANA time-zone database (the data
date-fns-tz consults through Intl): UTC-4 from 2:00 EST on the second
Sunday of March until 2:00 EDT on the first Sunday of November, UTC-5
otherwise. -/
def americaNewYorkOffset (t : ℤ) : ℤ :=
  let y := (civilFromDays (t.fdiv 86400)).year
  let dstStart := sundayOnOrAfter (daysFromCivil y 3 8) * 86400 + 7 * 3600
  let dstEnd := sundayOnOrAfter (daysFromCivil y 11 1) * 86400 + 6 * 3600
  if dstStart ≤ t ∧ t < dstEnd then -14400 else -18000

/-- A time-zone database: IANA name to offset-at-instant function, none for
an unrecognized name. -/
def TzDatabase : Type := String → Option (ℤ → ℤ)

/-- The concrete time-zone database slice used by the concrete test
instants of the spec. -/
def tzdb : TzDatabase := fun s =>
  if s = "America/New_York" then some americaNewYorkOffset else none

/-- Local civil date of a UTC instant under an offset function. -/
def localCivilDate (offset : ℤ → ℤ) (t : ℤ) : CivilDate :=
  civilFromDays ((t + offset t).fdiv 86400)

/-- Seconds since the epoch of a UTC wall-clock reading (helper for
stating concrete instants readably). -/
def utcSeconds (y m d hh mm : ℤ) : ℤ :=
  daysFromCivil y m d * 86400 + hh * 3600 + mm * 60

/-- Left-pads a natural number with zeros to the given width. -/
def padNat (width n : Nat) : String :=
  let s := toString n
  String.mk (List.replicate (width - s.length) '0') ++ s

/-- Formats a civil date as yyyy-MM-dd (format pattern used by the source). -/
def formatYmd (c : CivilDate) : String :=
  padNat 4 c.year.toNat ++ "-" ++ padNat 2 c.month.toNat ++ "-" ++ padNat 2 c.day.toNat

/-- Decomposition of a string that matches the strict \d{4}-\d{2}-\d{2}
regular expression of the source into numeric year/month/day fields. -/
def ymdFields (s : String) : Option (ℤ × ℤ × ℤ) :=
  match s.data with
  | [y1, y2, y3, y4, '-', m1, m2, '-', d1, d2] =>
    if (y1.isDigit ∧ y2.isDigit ∧ y3.isDigit ∧ y4.isDigit ∧
        m1.isDigit ∧ m2.isDigit ∧ d1.isDigit ∧ d2.isDigit : Bool) then
      some (((y1.toNat - 48) * 1000 + (y2.toNat - 48) * 100 +
              (y3.toNat - 48) * 10 + (y4.toNat - 48) : Nat),
            ((m1.toNat - 48) * 10 + (m2.toNat - 48) : Nat),
            ((d1.toNat - 48) * 10 + (d2.toNat - 48) : Nat))
    else none
  | _ => none

/-- isValidDateString from the date-resolution source: the strict
YYYY-MM-DD regular expression must match, and date-fns parse with pattern
yyyy-MM-dd must produce a valid date, which holds exactly when the month is
1..12 and the day is 1..daysInMonth. -/
def isValidDateString (dateStr : String) : Bool :=
  match ymdFields dateStr with
  | none => false
  | some (y, m, d) =>
    1 ≤ m ∧ m ≤ 12 ∧ 1 ≤ d ∧ d ≤ (daysInMonth y m.toNat : ℤ)

/-- DEFAULT_TIMEZONE constant from the date-resolution source. -/
def DEFAULT_TIMEZONE : String := "America/New_York"

/-- Result record of resolveDate. -/
structure DateResult where
  resolved_date : String
  explicit_date_in_text : Bool
deriving DecidableEq, Repr

/-- resolveDate from the date-resolution source, over a time-zone database.
A valid explicit date is returned as-is with the explicit flag; otherwise
the client timestamp is converted with toZonedTime and formatted as
yyyy-MM-dd. The timezone parameter defaults to DEFAULT_TIMEZONE when
absent; an unrecognized zone name reaching toZonedTime makes the library
(via Intl.DateTimeFormat, per ECMA-402) throw a RangeError, modelled as the
error case. The timestamp branch is split out first. -/
def resolveFromTimestamp (db : TzDatabase) (clientTimestamp : ℤ)
    (userTimezone : Option String) : Except String DateResult :=
  match db (userTimezone.getD DEFAULT_TIMEZONE) with
  | some offset =>
    .ok { resolved_date := formatYmd (localCivilDate offset clientTimestamp),
          explicit_date_in_text := false }
  | none => .error "RangeError: Invalid time zone specified"

/-- resolveDate proper: explicit date first, timestamp branch otherwise. -/
def resolveDate (db : TzDatabase) (explicitDate : Option String)
    (clientTimestamp : ℤ) (userTimezone : Option String) :
    Except String DateResult :=
  match explicitDate with
  | some s =>
    if isValidDateString s then
      .ok { resolved_date := s, explicit_date_in_text := true }
    else
      resolveFromTimestamp db clientTimestamp userTimezone
  | none => resolveFromTimestamp db clientTimestamp userTimezone

/-! ### Nutrient aggregation

Two aggregations exist in the source: the four-nutrient aggregateItems
helper of the aggregation test file and the eight-nutrient totals reduce of
the Home page, which additionally treats the optional nutrient fields as
zero via JavaScript `|| 0`. -/

/-- One value/low/high nutrient band, as accumulated by the aggregations. -/
structure NutrientValue where
  value : ℚ
  low : ℚ
  high : ℚ
deriving DecidableEq, Repr

/-- Item shape consumed by the aggregateItems helper of the test file. -/
structure AggItem where
  calories : ℚ
  calories_low : ℚ
  calories_high : ℚ
  protein_g : ℚ
  protein_low : ℚ
  protein_high : ℚ
  carbs_g : ℚ
  carbs_low : ℚ
  carbs_high : ℚ
  fat_g : ℚ
  fat_low : ℚ
  fat_high : ℚ
deriving DecidableEq, Repr

/-- Accumulator of the aggregateItems helper. -/
structure AggTotals where
  calories : NutrientValue
  protein : NutrientValue
  carbs : NutrientValue
  fat : NutrientValue
deriving DecidableEq, Repr

/-- One reduce step of aggregateItems. -/
def aggStep (acc : AggTotals) (item : AggItem) : AggTotals :=
  { calories := { value := acc.calories.value + item.calories
                  low := acc.calories.low + item.calories_low
                  high := acc.calories.high + item.calories_high }
    protein := { value := acc.protein.value + item.protein_g
                 low := acc.protein.low + item.protein_low
                 high := acc.protein.high + item.protein_high }
    carbs := { value := acc.carbs.value + item.carbs_g
               low := acc.carbs.low + item.carbs_low
               high := acc.carbs.high + item.carbs_high }
    fat := { value := acc.fat.value + item.fat_g
             low := acc.fat.low + item.fat_low
             high := acc.fat.high + item.fat_high } }

/-- The all-zero initial accumulator of aggregateItems. -/
def aggZero : AggTotals :=
  { calories := ⟨0, 0, 0⟩, protein := ⟨0, 0, 0⟩, carbs := ⟨0, 0, 0⟩, fat := ⟨0, 0, 0⟩ }

/-- aggregateItems from the aggregation test source: a reduce of aggStep
from the all-zero accumulator. -/
def aggregateItems (items : List AggItem) : AggTotals :=
  items.foldl aggStep aggZero

/-- Entry item shape consumed by the Home page totals reduce. The nutrient
fields the reduce guards with JavaScript logical-or-zero are Options. -/
structure HomeItem where
  calories : ℚ
  calories_low : ℚ
  calories_high : ℚ
  protein_g : ℚ
  protein_low : ℚ
  protein_high : ℚ
  carbs_g : ℚ
  carbs_low : ℚ
  carbs_high : ℚ
  fat_g : ℚ
  fat_low : ℚ
  fat_high : ℚ
  saturated_fat_g : Option ℚ
  saturated_fat_low : Option ℚ
  saturated_fat_high : Option ℚ
  fiber_g : Option ℚ
  fiber_low : Option ℚ
  fiber_high : Option ℚ
  added_sugar_g : Option ℚ
  added_sugar_low : Option ℚ
  added_sugar_high : Option ℚ
  sodium_mg : Option ℚ
  sodium_low : Option ℚ
  sodium_high : Option ℚ
deriving DecidableEq, Repr

/-- Accumulator of the Home page totals reduce. -/
structure HomeTotals where
  calories : NutrientValue
  protein : NutrientValue
  carbs : NutrientValue
  fat : NutrientValue
  saturatedFat : NutrientValue
  fiber : NutrientValue
  addedSugar : NutrientValue
  sodium : NutrientValue
deriving DecidableEq, Repr

/-- One forEach step of the Home page totals reduce; a missing optional
nutrient contributes zero (JavaScript `item.field || 0`). -/
def homeStep (acc : HomeTotals) (item : HomeItem) : HomeTotals :=
  { calories := { value := acc.calories.value + item.calories
                  low := acc.calories.low + item.calories_low
                  high := acc.calories.high + item.calories_high }
    protein := { value := acc.protein.value + item.protein_g
                 low := acc.protein.low + item.protein_low
                 high := acc.protein.high + item.protein_high }
    carbs := { value := acc.carbs.value + item.carbs_g
               low := acc.carbs.low + item.carbs_low
               high := acc.carbs.high + item.carbs_high }
    fat := { value := acc.fat.value + item.fat_g
             low := acc.fat.low + item.fat_low
             high := acc.fat.high + item.fat_high }
    saturatedFat := { value := acc.saturatedFat.value + item.saturated_fat_g.getD 0
                      low := acc.saturatedFat.low + item.saturated_fat_low.getD 0
                      high := acc.saturatedFat.high + item.saturated_fat_high.getD 0 }
    fiber := { value := acc.fiber.value + item.fiber_g.getD 0
               low := acc.fiber.low + item.fiber_low.getD 0
               high := acc.fiber.high + item.fiber_high.getD 0 }
    addedSugar := { value := acc.addedSugar.value + item.added_sugar_g.getD 0
                    low := acc.addedSugar.low + item.added_sugar_low.getD 0
                    high := acc.addedSugar.high + item.added_sugar_high.getD 0 }
    sodium := { value := acc.sodium.value + item.sodium_mg.getD 0
                low := acc.sodium.low + item.sodium_low.getD 0
                high := acc.sodium.high + item.sodium_high.getD 0 } }

/-- The all-zero initial accumulator of the Home page totals reduce. -/
def homeZero : HomeTotals :=
  { calories := ⟨0, 0, 0⟩, protein := ⟨0, 0, 0⟩, carbs := ⟨0, 0, 0⟩, fat := ⟨0, 0, 0⟩
    saturatedFat := ⟨0, 0, 0⟩, fiber := ⟨0, 0, 0⟩, addedSugar := ⟨0, 0, 0⟩
    sodium := ⟨0, 0, 0⟩ }

/-- The Home page totals computation: a reduce over entries whose body
forEach-es over each entry item list (an entry is represented by its
entry_items list, the only part the reduce reads). -/
def homeTotals (entries : List (List HomeItem)) : HomeTotals :=
  entries.foldl (fun acc e => e.foldl homeStep acc) homeZero

/-- Component-wise specification sums: the totals record whose every
component is the plain sum of the matching per-item field (optional fields
as zero), written from the words of the spec for comparison with the code
aggregations. -/
def specHomeSums (items : List HomeItem) : HomeTotals :=
  { calories := { value := (items.map (·.calories)).sum
                  low := (items.map (·.calories_low)).sum
                  high := (items.map (·.calories_high)).sum }
    protein := { value := (items.map (·.protein_g)).sum
                 low := (items.map (·.protein_low)).sum
                 high := (items.map (·.protein_high)).sum }
    carbs := { value := (items.map (·.carbs_g)).sum
               low := (items.map (·.carbs_low)).sum
               high := (items.map (·.carbs_high)).sum }
    fat := { value := (items.map (·.fat_g)).sum
             low := (items.map (·.fat_low)).sum
             high := (items.map (·.fat_high)).sum }
    saturatedFat := { value := (items.map (fun i => i.saturated_fat_g.getD 0)).sum
                      low := (items.map (fun i => i.saturated_fat_low.getD 0)).sum
                      high := (items.map (fun i => i.saturated_fat_high.getD 0)).sum }
    fiber := { value := (items.map (fun i => i.fiber_g.getD 0)).sum
               low := (items.map (fun i => i.fiber_low.getD 0)).sum
               high := (items.map (fun i => i.fiber_high.getD 0)).sum }
    addedSugar := { value := (items.map (fun i => i.added_sugar_g.getD 0)).sum
                    low := (items.map (fun i => i.added_sugar_low.getD 0)).sum
                    high := (items.map (fun i => i.added_sugar_high.getD 0)).sum }
    sodium := { value := (items.map (fun i => i.sodium_mg.getD 0)).sum
                low := (items.map (fun i => i.sodium_low.getD 0)).sum
                high := (items.map (fun i => i.sodium_high.getD 0)).sum } }

/-- Component-wise specification sums for the four-nutrient test helper. -/
def specAggSums (items : List AggItem) : AggTotals :=
  { calories := { value := (items.map (·.calories)).sum
                  low := (items.map (·.calories_low)).sum
                  high := (items.map (·.calories_high)).sum }
    protein := { value := (items.map (·.protein_g)).sum
                 low := (items.map (·.protein_low)).sum
                 high := (items.map (·.protein_high)).sum }
    carbs := { value := (items.map (·.carbs_g)).sum
               low := (items.map (·.carbs_low)).sum
               high := (items.map (·.carbs_high)).sum }
    fat := { value := (items.map (·.fat_g)).sum
             low := (items.map (·.fat_low)).sum
             high := (items.map (·.fat_high)).sum } }

/-! ### Manual override PATCH handler

The pure core of the PATCH /api/entries/items/[id] route: validation, then
the construction of the update object against the currently stored row.
The authentication, ownership and persistence steps around it are I/O; the
handler returns before any database write when validation fails. -/

/-- The stored entry_items columns the PATCH handler reads or writes. -/
structure StoredItem where
  food_name : String
  calories : ℚ
  calories_low : ℚ
  calories_high : ℚ
  protein_g : ℚ
  protein_low : ℚ
  protein_high : ℚ
  carbs_g : ℚ
  carbs_low : ℚ
  carbs_high : ℚ
  fat_g : ℚ
  fat_low : ℚ
  fat_high : ℚ
  saturated_fat_g : ℚ
  unsaturated_fat_g : ℚ
  fiber_g : ℚ
  fiber_low : ℚ
  fiber_high : ℚ
  sodium_mg : ℚ
  override_fields : Option (List String)
  has_override : Bool
  updated_at : ℤ
deriving DecidableEq, Repr

/-- The request body fields the PATCH handler destructures; absent fields
are undefined. -/
structure PatchBody where
  food_name : Option String
  calories : Option ℚ
  protein_g : Option ℚ
  carbs_g : Option ℚ
  fat_g : Option ℚ
  fiber_g : Option ℚ
deriving DecidableEq, Repr

/-- The all-absent patch body. -/
def emptyPatch : PatchBody :=
  { food_name := none, calories := none, protein_g := none, carbs_g := none,
    fat_g := none, fiber_g := none }

/-- Whether an optional request field is present with a negative value. -/
def presentNegative (o : Option ℚ) : Bool :=
  match o with
  | some p => p < 0
  | none => false

/-- The validation block of the PATCH handler, in source order; returns the
error message of the first failing check. The calories condition in the
source is `calories < 5 || calories < 0`. -/
def validatePatch (body : PatchBody) : Option String :=
  if (match body.calories with | some c => (c < 5 ∨ c < 0 : Bool) | none => false) then
    some "Calories must be at least 5"
  else if presentNegative body.protein_g then some "Protein cannot be negative"
  else if presentNegative body.carbs_g then some "Carbs cannot be negative"
  else if presentNegative body.fat_g then some "Fat cannot be negative"
  else if presentNegative body.fiber_g then some "Fiber cannot be negative"
  else none

/-- Appends a field name to the overridden list only if not present, as the
includes/push pattern of the source does. -/
def pushUnique (l : List String) (f : String) : List String :=
  if f ∈ l then l else l ++ [f]

/-- Whether an optional request field is present with a value differing
from the stored one (the `x !== undefined && x !== current.x` test). -/
def diffB {a : Type} [DecidableEq a] (o : Option a) (x : a) : Bool :=
  match o with
  | some v => v != x
  | none => false

/-- Pushes a field name onto the overridden list when the condition holds. -/
def condPush (l : List String) (cond : Bool) (f : String) : List String :=
  if cond then pushUnique l f else l

/-- The overridden-fields list after the PATCH handler pushes, in source
order, each present-and-differing field name not already recorded (a
non-array override_fields column is replaced by the empty list, as the
Array.isArray guard does; in this model the column is a list or null). -/
def patchedOverrides (cur : StoredItem) (body : PatchBody) : List String :=
  condPush (condPush (condPush (condPush (condPush (condPush
    (cur.override_fields.getD [])
    (diffB body.food_name cur.food_name) "food_name")
    (diffB body.calories cur.calories) "calories")
    (diffB body.protein_g cur.protein_g) "protein_g")
    (diffB body.carbs_g cur.carbs_g) "carbs_g")
    (diffB body.fat_g cur.fat_g) "fat_g")
    (diffB body.fiber_g cur.fiber_g) "fiber_g"

/-- The update-object construction of the PATCH handler merged into the
stored row. The handler builds an updates object that assigns each column
at most once, so the merged row is given per column: each
present-and-differing field replaces its point value; the calories bounds
rescale by newValue/oldValue (ratio 1 unless the old value is positive)
rounded to the nearest integer; the protein/carbs/fat bounds rescale
rounded to one decimal; a fat override also rescales saturated and
unsaturated fat; fiber and food_name replace only the point value; and
updated_at, has_override and override_fields are assigned unconditionally. -/
def applyPatch (now : ℤ) (cur : StoredItem) (body : PatchBody) : StoredItem :=
  { food_name :=
      match body.food_name with
      | some v => if v ≠ cur.food_name then v else cur.food_name
      | none => cur.food_name
    calories :=
      match body.calories with
      | some v => if v ≠ cur.calories then v else cur.calories
      | none => cur.calories
    calories_low :=
      match body.calories with
      | some v =>
        if v ≠ cur.calories then
          jsRound (cur.calories_low * (if cur.calories > 0 then v / cur.calories else 1))
        else cur.calories_low
      | none => cur.calories_low
    calories_high :=
      match body.calories with
      | some v =>
        if v ≠ cur.calories then
          jsRound (cur.calories_high * (if cur.calories > 0 then v / cur.calories else 1))
        else cur.calories_high
      | none => cur.calories_high
    protein_g :=
      match body.protein_g with
      | some v => if v ≠ cur.protein_g then v else cur.protein_g
      | none => cur.protein_g
    protein_low :=
      match body.protein_g with
      | some v =>
        if v ≠ cur.protein_g then
          round1 (cur.protein_low * (if cur.protein_g > 0 then v / cur.protein_g else 1))
        else cur.protein_low
      | none => cur.protein_low
    protein_high :=
      match body.protein_g with
      | some v =>
        if v ≠ cur.protein_g then
          round1 (cur.protein_high * (if cur.protein_g > 0 then v / cur.protein_g else 1))
        else cur.protein_high
      | none => cur.protein_high
    carbs_g :=
      match body.carbs_g with
      | some v => if v ≠ cur.carbs_g then v else cur.carbs_g
      | none => cur.carbs_g
    carbs_low :=
      match body.carbs_g with
      | some v =>
        if v ≠ cur.carbs_g then
          round1 (cur.carbs_low * (if cur.carbs_g > 0 then v / cur.carbs_g else 1))
        else cur.carbs_low
      | none => cur.carbs_low
    carbs_high :=
      match body.carbs_g with
      | some v =>
        if v ≠ cur.carbs_g then
          round1 (cur.carbs_high * (if cur.carbs_g > 0 then v / cur.carbs_g else 1))
        else cur.carbs_high
      | none => cur.carbs_high
    fat_g :=
      match body.fat_g with
      | some v => if v ≠ cur.fat_g then v else cur.fat_g
      | none => cur.fat_g
    fat_low :=
      match body.fat_g with
      | some v =>
        if v ≠ cur.fat_g then
          round1 (cur.fat_low * (if cur.fat_g > 0 then v / cur.fat_g else 1))
        else cur.fat_low
      | none => cur.fat_low
    fat_high :=
      match body.fat_g with
      | some v =>
        if v ≠ cur.fat_g then
          round1 (cur.fat_high * (if cur.fat_g > 0 then v / cur.fat_g else 1))
        else cur.fat_high
      | none => cur.fat_high
    saturated_fat_g :=
      match body.fat_g with
      | some v =>
        if v ≠ cur.fat_g then
          round1 (cur.saturated_fat_g * (if cur.fat_g > 0 then v / cur.fat_g else 1))
        else cur.saturated_fat_g
      | none => cur.saturated_fat_g
    unsaturated_fat_g :=
      match body.fat_g with
      | some v =>
        if v ≠ cur.fat_g then
          round1 (cur.unsaturated_fat_g * (if cur.fat_g > 0 then v / cur.fat_g else 1))
        else cur.unsaturated_fat_g
      | none => cur.unsaturated_fat_g
    fiber_g :=
      match body.fiber_g with
      | some v => if v ≠ cur.fiber_g then v else cur.fiber_g
      | none => cur.fiber_g
    fiber_low := cur.fiber_low
    fiber_high := cur.fiber_high
    sodium_mg := cur.sodium_mg
    override_fields := some (patchedOverrides cur body)
    has_override := true
    updated_at := now }

/-- The pure outcome of the PATCH handler for an owned, fetched row: a 400
validation error (issued before any write) or the updated stored row. -/
def patchItem (now : ℤ) (current : StoredItem) (body : PatchBody) :
    Except String StoredItem :=
  match validatePatch body with
  | some msg => .error msg
  | none => .ok (applyPatch now current body)

/-! ### Compliance recommendation thresholds

Two copies of the DailySummary component exist in the repository, with
getRecommendations functions that differ only in the sodium thresholds. -/

/-- A threshold with an optional stricter warning level. -/
structure LimitRec where
  limit : ℚ
  warning : Option ℚ
  tip : String
deriving DecidableEq, Repr

/-- A daily target threshold. -/
structure TargetRec where
  target : ℚ
  tip : String
deriving DecidableEq, Repr

/-- The record returned by getRecommendations. -/
structure Recommendations where
  saturatedFat : LimitRec
  sodium : LimitRec
  addedSugar : LimitRec
  fiber : TargetRec
deriving DecidableEq, Repr

/-- JavaScript `targetCalories || 2000`: an absent or zero target falls
back to 2000. -/
def calsOrDefault (targetCalories : Option ℚ) : ℚ :=
  match targetCalories with
  | none => 2000
  | some c => if c = 0 then 2000 else c

/-- getRecommendations of the DailySummary copy whose sodium limit is
2300 mg with a 1500 mg ideal warning. -/
def getRecommendationsA (targetCalories : Option ℚ) (sex : Option Sex) :
    Recommendations :=
  let cals := calsOrDefault targetCalories
  let isMale := sex = some Sex.male
  { saturatedFat := { limit := jsRound (cals * (10/100) / 9), warning := none,
                      tip := "<10% of calories" }
    sodium := { limit := 2300, warning := some 1500, tip := "<2300mg (ideal <1500mg)" }
    addedSugar := { limit := if isMale then 36 else 25, warning := none,
                    tip := if isMale then "<36g added sugar" else "<25g added sugar" }
    fiber := { target := if isMale then 38 else 25,
               tip := if isMale then "38g daily goal" else "25g daily goal" } }

/-- getRecommendations of the other DailySummary copy, whose sodium limit
is 2750 mg with a 2300 mg warning. -/
def getRecommendationsB (targetCalories : Option ℚ) (sex : Option Sex) :
    Recommendations :=
  let cals := calsOrDefault targetCalories
  let isMale := sex = some Sex.male
  { saturatedFat := { limit := jsRound (cals * (10/100) / 9), warning := none,
                      tip := "<10% of calories" }
    sodium := { limit := 2750, warning := some 2300, tip := "<2750mg (ideal <2300mg)" }
    addedSugar := { limit := if isMale then 36 else 25, warning := none,
                    tip := if isMale then "<36g added sugar" else "<25g added sugar" }
    fiber := { target := if isMale then 38 else 25,
               tip := if isMale then "38g daily goal" else "25g daily goal" } }

/-- Strict YYYY-MM-DD shape: exactly the strings matched by the regular
expression of the source. -/
def matchesStrictYmd (s : String) : Bool := (ymdFields s).isSome

/-- Whether a pattern-shaped string denotes a real proleptic Gregorian
calendar date: month 1..12 and day within the length of the month (what
date-fns parse with pattern yyyy-MM-dd accepts). -/
def denotesRealDate (s : String) : Bool :=
  match ymdFields s with
  | some (y, m, d) => 1 ≤ m ∧ m ≤ 12 ∧ 1 ≤ d ∧ d ≤ (daysInMonth y m.toNat : ℤ)
  | none => false

/-- A concrete stored row used to evaluate the PATCH handler on the
examples of the spec. -/
def sampleItem : StoredItem :=
  { food_name := "oatmeal"
    calories := 200, calories_low := 180, calories_high := 220
    protein_g := 10, protein_low := 9, protein_high := 11
    carbs_g := 30, carbs_low := 27, carbs_high := 33
    fat_g := 5, fat_low := 4, fat_high := 6
    saturated_fat_g := 2, unsaturated_fat_g := 3
    fiber_g := 5, fiber_low := 4, fiber_high := 6
    sodium_mg := 100
    override_fields := none, has_override := false, updated_at := 0 }

/-! ## Helper lemmas -/

/-- Componentwise addition on the four-nutrient totals. -/
def aggAdd (a b : AggTotals) : AggTotals :=
  { calories := { value := a.calories.value + b.calories.value
                  low := a.calories.low + b.calories.low
                  high := a.calories.high + b.calories.high }
    protein := { value := a.protein.value + b.protein.value
                 low := a.protein.low + b.protein.low
                 high := a.protein.high + b.protein.high }
    carbs := { value := a.carbs.value + b.carbs.value
               low := a.carbs.low + b.carbs.low
               high := a.carbs.high + b.carbs.high }
    fat := { value := a.fat.value + b.fat.value
             low := a.fat.low + b.fat.low
             high := a.fat.high + b.fat.high } }

/-- Componentwise addition on the eight-nutrient totals. -/
def homeAdd (a b : HomeTotals) : HomeTotals :=
  { calories := { value := a.calories.value + b.calories.value
                  low := a.calories.low + b.calories.low
                  high := a.calories.high + b.calories.high }
    protein := { value := a.protein.value + b.protein.value
                 low := a.protein.low + b.protein.low
                 high := a.protein.high + b.protein.high }
    carbs := { value := a.carbs.value + b.carbs.value
               low := a.carbs.low + b.carbs.low
               high := a.carbs.high + b.carbs.high }
    fat := { value := a.fat.value + b.fat.value
             low := a.fat.low + b.fat.low
             high := a.fat.high + b.fat.high }
    saturatedFat := { value := a.saturatedFat.value + b.saturatedFat.value
                      low := a.saturatedFat.low + b.saturatedFat.low
                      high := a.saturatedFat.high + b.saturatedFat.high }
    fiber := { value := a.fiber.value + b.fiber.value
               low := a.fiber.low + b.fiber.low
               high := a.fiber.high + b.fiber.high }
    addedSugar := { value := a.addedSugar.value + b.addedSugar.value
                    low := a.addedSugar.low + b.addedSugar.low
                    high := a.addedSugar.high + b.addedSugar.high }
    sodium := { value := a.sodium.value + b.sodium.value
                low := a.sodium.low + b.sodium.low
                high := a.sodium.high + b.sodium.high } }

/-- A fold of aggStep from any accumulator adds the componentwise sums. -/
theorem foldl_aggStep (l : List AggItem) (acc : AggTotals) :
    l.foldl aggStep acc = aggAdd acc (specAggSums l) := by
  induction l generalizing acc with
  | nil => simp [specAggSums, aggAdd]
  | cons i l ih => simp [specAggSums, aggAdd, aggStep, ih, add_assoc]

/-- A fold of homeStep from any accumulator adds the componentwise sums. -/
theorem foldl_homeStep (l : List HomeItem) (acc : HomeTotals) :
    l.foldl homeStep acc = homeAdd acc (specHomeSums l) := by
  induction l generalizing acc with
  | nil => simp [specHomeSums, homeAdd]
  | cons i l ih => simp [specHomeSums, homeAdd, homeStep, ih, add_assoc]

/-- The nested entry/item fold of the Home page equals a flat fold over the
concatenated item lists. -/
theorem homeTotals_eq_join_foldl (es : List (List HomeItem)) (acc : HomeTotals) :
    es.foldl (fun acc e => e.foldl homeStep acc) acc = es.flatten.foldl homeStep acc := by
  induction es generalizing acc with
  | nil => rfl
  | cons e es ih => simp [List.foldl_append, ih]

/-- The componentwise sums are invariant under permutation (four nutrients). -/
theorem specAggSums_perm {l1 l2 : List AggItem} (h : List.Perm l1 l2) :
    specAggSums l1 = specAggSums l2 := by
  unfold specAggSums
  rw [(h.map (·.calories)).sum_eq, (h.map (·.calories_low)).sum_eq,
    (h.map (·.calories_high)).sum_eq, (h.map (·.protein_g)).sum_eq,
    (h.map (·.protein_low)).sum_eq, (h.map (·.protein_high)).sum_eq,
    (h.map (·.carbs_g)).sum_eq, (h.map (·.carbs_low)).sum_eq,
    (h.map (·.carbs_high)).sum_eq, (h.map (·.fat_g)).sum_eq,
    (h.map (·.fat_low)).sum_eq, (h.map (·.fat_high)).sum_eq]

/-- The componentwise sums are invariant under permutation (eight nutrients). -/
theorem specHomeSums_perm {l1 l2 : List HomeItem} (h : List.Perm l1 l2) :
    specHomeSums l1 = specHomeSums l2 := by
  unfold specHomeSums
  rw [(h.map (·.calories)).sum_eq, (h.map (·.calories_low)).sum_eq,
    (h.map (·.calories_high)).sum_eq, (h.map (·.protein_g)).sum_eq,
    (h.map (·.protein_low)).sum_eq, (h.map (·.protein_high)).sum_eq,
    (h.map (·.carbs_g)).sum_eq, (h.map (·.carbs_low)).sum_eq,
    (h.map (·.carbs_high)).sum_eq, (h.map (·.fat_g)).sum_eq,
    (h.map (·.fat_low)).sum_eq, (h.map (·.fat_high)).sum_eq,
    (h.map (fun i => i.saturated_fat_g.getD 0)).sum_eq,
    (h.map (fun i => i.saturated_fat_low.getD 0)).sum_eq,
    (h.map (fun i => i.saturated_fat_high.getD 0)).sum_eq,
    (h.map (fun i => i.fiber_g.getD 0)).sum_eq,
    (h.map (fun i => i.fiber_low.getD 0)).sum_eq,
    (h.map (fun i => i.fiber_high.getD 0)).sum_eq,
    (h.map (fun i => i.added_sugar_g.getD 0)).sum_eq,
    (h.map (fun i => i.added_sugar_low.getD 0)).sum_eq,
    (h.map (fun i => i.added_sugar_high.getD 0)).sum_eq,
    (h.map (fun i => i.sodium_mg.getD 0)).sum_eq,
    (h.map (fun i => i.sodium_low.getD 0)).sum_eq,
    (h.map (fun i => i.sodium_high.getD 0)).sum_eq]

/-- The test-file aggregation equals the componentwise specification sums. -/
theorem aggregateItems_eq_spec (items : List AggItem) :
    aggregateItems items = specAggSums items := by
  unfold aggregateItems
  rw [foldl_aggStep]
  simp [aggAdd, aggZero]

/-- The Home page totals equal the componentwise specification sums of the
concatenated item lists. -/
theorem homeTotals_eq_spec (es : List (List HomeItem)) :
    homeTotals es = specHomeSums es.flatten := by
  unfold homeTotals
  rw [homeTotals_eq_join_foldl, foldl_homeStep]
  simp [homeAdd, homeZero]

/-! ## Claim theorems -/

/-- C1: aggregation returns, for each tracked nutrient, the component-wise
sum of value, low and high over the items, with missing optional nutrient
fields counted as zero; the result is invariant under permutation of the
item list; the empty list yields all-zero totals; and the summed low bound
equals exactly the sum of the per-item low bounds. -/
theorem aggregation_is_componentwise_sum
    (items l1 l2 : List AggItem) (es e1 e2 : List (List HomeItem))
    (hp : List.Perm l1 l2) (hq : List.Perm e1.flatten e2.flatten) :
    aggregateItems items = specAggSums items ∧
    homeTotals es = specHomeSums es.flatten ∧
    aggregateItems l1 = aggregateItems l2 ∧
    homeTotals e1 = homeTotals e2 ∧
    aggregateItems [] =
      { calories := ⟨0, 0, 0⟩, protein := ⟨0, 0, 0⟩,
        carbs := ⟨0, 0, 0⟩, fat := ⟨0, 0, 0⟩ } ∧
    homeTotals [] =
      { calories := ⟨0, 0, 0⟩, protein := ⟨0, 0, 0⟩, carbs := ⟨0, 0, 0⟩,
        fat := ⟨0, 0, 0⟩, saturatedFat := ⟨0, 0, 0⟩, fiber := ⟨0, 0, 0⟩,
        addedSugar := ⟨0, 0, 0⟩, sodium := ⟨0, 0, 0⟩ } ∧
    (aggregateItems items).calories.low = (items.map (·.calories_low)).sum := by
  refine ⟨aggregateItems_eq_spec items, homeTotals_eq_spec es, ?_, ?_, rfl, rfl, ?_⟩
  · rw [aggregateItems_eq_spec, aggregateItems_eq_spec, specAggSums_perm hp]
  · rw [homeTotals_eq_spec, homeTotals_eq_spec, specHomeSums_perm hq]
  · rw [aggregateItems_eq_spec]; rfl

/-- C1 witness: the aggregation theorem applied at concrete inputs. -/
theorem aggregation_is_componentwise_sum_witness :
    aggregateItems [] = specAggSums [] ∧
    homeTotals [[]] = specHomeSums [[]].flatten := by
  have h := aggregation_is_componentwise_sum [] [] [] [[]] [[]] [[]]
    (List.Perm.refl []) (List.Perm.refl [[]].flatten)
  exact ⟨h.1, h.2.1⟩

/-- C2: calculateBMR returns the Mifflin-St Jeor point estimate (male
offset +5, female offset -161) rounded to the nearest integer, with
bmr_low and bmr_high equal to 0.9 and 1.1 times the unrounded estimate,
each rounded independently; for weight 70, height 175, age 30 the point
estimate is 1649 for male and 1483 for female. -/
theorem calculateBMR_mifflin_st_jeor (w h a : ℚ) :
    calculateBMR w h a Sex.male =
      { bmr := jsRound (10 * w + 6.25 * h - 5 * a + 5)
        bmr_low := jsRound (0.9 * (10 * w + 6.25 * h - 5 * a + 5))
        bmr_high := jsRound (1.1 * (10 * w + 6.25 * h - 5 * a + 5)) } ∧
    calculateBMR w h a Sex.female =
      { bmr := jsRound (10 * w + 6.25 * h - 5 * a - 161)
        bmr_low := jsRound (0.9 * (10 * w + 6.25 * h - 5 * a - 161))
        bmr_high := jsRound (1.1 * (10 * w + 6.25 * h - 5 * a - 161)) } ∧
    (calculateBMR 70 175 30 Sex.male).bmr = 1649 ∧
    (calculateBMR 70 175 30 Sex.female).bmr = 1483 := by
  refine ⟨?_, ?_,
    by norm_num [calculateBMR, jsRound, BMR_UNCERTAINTY],
    by norm_num [calculateBMR, jsRound, BMR_UNCERTAINTY]⟩ <;>
    · simp only [calculateBMR, BMR_UNCERTAINTY, BMRResult.mk.injEq]
      refine ⟨by norm_num, ?_, ?_⟩ <;> · congr 1; ring

/-- C3: calculateTDEE combines the interval endpoints pairwise with the
activity multipliers and subtracts the signed deficit after rounding the
TDEE; the multiplier table has exactly the five fixed levels;
calculateFullTDEE sets the protein target to round(weight x 1.6) and
returns null whenever weight, height, age or sex is absent; and for BMR
1649, multiplier 1.55 and deficit 500 the TDEE is 2556 and the target is
2056. -/
theorem calculateTDEE_pairwise_targets
    (bmr bmrLow bmrHigh d w h a : ℚ) (sx : Sex) (level : ActivityLevelOption)
    (hlevel : level ∈ DEFAULT_ACTIVITY_LEVELS)
    (hw : w ≠ 0) (hh : h ≠ 0) (ha : a ≠ 0) (s0 : UserSettingsCore) :
    (calculateTDEE bmr bmrLow bmrHigh level.multiplier level.multiplier_low
        level.multiplier_high d =
      { bmr := bmr, bmr_low := bmrLow, bmr_high := bmrHigh
        tdee := jsRound (bmr * level.multiplier)
        tdee_low := jsRound (bmrLow * level.multiplier_low)
        tdee_high := jsRound (bmrHigh * level.multiplier_high)
        target_calories := jsRound (jsRound (bmr * level.multiplier) - d)
        target_calories_low := jsRound (jsRound (bmrLow * level.multiplier_low) - d)
        target_calories_high := jsRound (jsRound (bmrHigh * level.multiplier_high) - d)
        protein_target_g := 0 }) ∧
    DEFAULT_ACTIVITY_LEVELS.map (fun l => l.multiplier) =
      [12/10, 1375/1000, 155/100, 1725/1000, 19/10] ∧
    (calculateFullTDEE
        { weight_kg := some w, height_cm := some h, age_years := some a,
          sex := some sx, calorie_deficit := d } level =
      some { calculateTDEE (calculateBMR w h a sx).bmr (calculateBMR w h a sx).bmr_low
              (calculateBMR w h a sx).bmr_high level.multiplier level.multiplier_low
              level.multiplier_high d with
              protein_target_g := jsRound (w * 1.6) }) ∧
    calculateFullTDEE { s0 with weight_kg := none } level = none ∧
    calculateFullTDEE { s0 with height_cm := none } level = none ∧
    calculateFullTDEE { s0 with age_years := none } level = none ∧
    calculateFullTDEE { s0 with sex := none } level = none ∧
    (calculateTDEE 1649 1484 1814 (155/100) (15/10) (16/10) 500).tdee = 2556 ∧
    (calculateTDEE 1649 1484 1814 (155/100) (15/10) (16/10) 500).target_calories = 2056 := by
  refine ⟨rfl, rfl, ?_, ?_, ?_, ?_, ?_, ?_, ?_⟩
  · simp only [calculateFullTDEE, truthyNum]
    rw [if_neg (by simp [hw, hh, ha])]
    simp only [Option.some.injEq, TDEECalculation.mk.injEq, and_true, true_and]
    congr 1
    ring
  · simp [calculateFullTDEE, truthyNum]
  · simp [calculateFullTDEE, truthyNum]
  · simp [calculateFullTDEE, truthyNum]
  · simp [calculateFullTDEE, truthyNum]
  · norm_num [calculateTDEE, jsRound]
  · norm_num [calculateTDEE, jsRound]

/-- C3 witness: the TDEE theorem applied at a concrete profile and the
moderate activity level. -/
theorem calculateTDEE_pairwise_targets_witness :
    calculateFullTDEE
      { weight_kg := none, height_cm := some 175, age_years := some 30,
        sex := some Sex.male, calorie_deficit := 500 }
      { id := 3, label := "Moderate activity", multiplier := 155/100,
        multiplier_low := 15/10, multiplier_high := 16/10 } = none := by
  have h := calculateTDEE_pairwise_targets 1649 1484 1814 500 70 175 30 Sex.male
    { id := 3, label := "Moderate activity", multiplier := 155/100,
      multiplier_low := 15/10, multiplier_high := 16/10 }
    (by unfold DEFAULT_ACTIVITY_LEVELS
        exact List.mem_cons_of_mem _ (List.mem_cons_of_mem _ (List.mem_cons_self _ _)))
    (by norm_num) (by norm_num) (by norm_num)
    { weight_kg := some 70, height_cm := some 175, age_years := some 30,
      sex := some Sex.male, calorie_deficit := 500 }
  exact h.2.2.2.1

/-- C4: resolveDate returns the explicit date with the explicit flag
exactly when the explicit string is non-null, matches the strict
YYYY-MM-DD pattern and denotes a real calendar date (month 13 and Feb 30
rejected); a null or invalid explicit string falls back, silently and
without error, to the timestamp-derived local date with the flag false. -/
theorem resolveDate_explicit_precedence
    (db : TzDatabase) (s : String) (t : ℤ) (tz : Option String)
    (off : ℤ → ℤ) (hdb : db (tz.getD DEFAULT_TIMEZONE) = some off) :
    isValidDateString s = (matchesStrictYmd s && denotesRealDate s) ∧
    (isValidDateString s = true →
      resolveDate db (some s) t tz =
        .ok { resolved_date := s, explicit_date_in_text := true }) ∧
    (isValidDateString s = false →
      resolveDate db (some s) t tz =
        .ok { resolved_date := formatYmd (localCivilDate off t),
              explicit_date_in_text := false }) ∧
    resolveDate db none t tz =
      .ok { resolved_date := formatYmd (localCivilDate off t),
            explicit_date_in_text := false } ∧
    isValidDateString "2026-13-01" = false ∧
    isValidDateString "2026-02-30" = false ∧
    isValidDateString "not-a-date" = false ∧
    resolveDate tzdb (some "2026-01-15") (utcSeconds 2026 1 29 10 0)
        (some "America/New_York") =
      .ok { resolved_date := "2026-01-15", explicit_date_in_text := true } ∧
    resolveDate tzdb (some "not-a-date") (utcSeconds 2026 1 29 15 0)
        (some "America/New_York") =
      .ok { resolved_date := "2026-01-29", explicit_date_in_text := false } := by
  refine ⟨?_, ?_, ?_, ?_, by decide, by decide, by decide, by rfl, by rfl⟩
  · unfold isValidDateString matchesStrictYmd denotesRealDate
    rcases hf : ymdFields s with _ | ⟨y, m, d⟩ <;> simp
  · intro hvalid
    simp [resolveDate, hvalid]
  · intro hinvalid
    simp [resolveDate, resolveFromTimestamp, hinvalid, hdb]
  · simp [resolveDate, resolveFromTimestamp, hdb]

/-- C4 witness: the explicit-precedence theorem applied at the concrete
zone database, timezone and date strings. -/
theorem resolveDate_explicit_precedence_witness :
    resolveDate tzdb (some "2026-01-15") 0 (some "America/New_York") =
      .ok { resolved_date := "2026-01-15", explicit_date_in_text := true } := by
  have h := resolveDate_explicit_precedence tzdb "2026-01-15" 0
    (some "America/New_York") americaNewYorkOffset rfl
  exact h.2.1 (by decide)

/-- C5: with no explicit date, resolveDate maps every submission instant
to the local calendar date of that instant in America/New_York, with no
day-rollover heuristic; 2026-01-30T04:58:00Z resolves to 2026-01-29 and
2026-01-30T05:02:00Z resolves to 2026-01-30. -/
theorem resolveDate_timezone_boundary (t : ℤ) :
    resolveDate tzdb none t (some "America/New_York") =
      .ok { resolved_date := formatYmd (localCivilDate americaNewYorkOffset t),
            explicit_date_in_text := false } ∧
    resolveDate tzdb none (utcSeconds 2026 1 30 4 58) (some "America/New_York") =
      .ok { resolved_date := "2026-01-29", explicit_date_in_text := false } ∧
    resolveDate tzdb none (utcSeconds 2026 1 30 5 2) (some "America/New_York") =
      .ok { resolved_date := "2026-01-30", explicit_date_in_text := false } :=
  ⟨rfl, rfl, rfl⟩

/-- Membership in pushUnique: the pushed name or an existing member. -/
theorem mem_pushUnique {l : List String} {f a : String} :
    a ∈ pushUnique l f ↔ a ∈ l ∨ a = f := by
  unfold pushUnique
  split
  · rename_i hf
    constructor
    · exact Or.inl
    · rintro (h | rfl)
      · exact h
      · exact hf
  · simp [List.mem_append]

/-- pushUnique preserves the no-duplicates invariant. -/
theorem nodup_pushUnique {l : List String} {f : String} (h : l.Nodup) :
    (pushUnique l f).Nodup := by
  unfold pushUnique
  split
  · exact h
  · rename_i hf
    simpa [List.nodup_append] using ⟨h, hf⟩

/-- Membership in condPush. -/
theorem mem_condPush {l : List String} {c : Bool} {f a : String} :
    a ∈ condPush l c f ↔ a ∈ l ∨ (c = true ∧ a = f) := by
  unfold condPush
  cases c <;> simp [mem_pushUnique]

/-- condPush preserves the no-duplicates invariant. -/
theorem nodup_condPush {l : List String} {c : Bool} {f : String} (h : l.Nodup) :
    (condPush l c f).Nodup := by
  unfold condPush
  split
  · exact nodup_pushUnique h
  · exact h

/-- diffB at a present value is the disequality test. -/
theorem diffB_some {a : Type} [DecidableEq a] {v x : a} :
    diffB (some v) x = true ↔ v ≠ x := by
  simp [diffB]

/-- Full membership characterization of the overridden-fields list. -/
theorem mem_patchedOverrides (cur : StoredItem) (body : PatchBody) (f : String) :
    f ∈ patchedOverrides cur body ↔
      f ∈ cur.override_fields.getD [] ∨
      (diffB body.food_name cur.food_name = true ∧ f = "food_name") ∨
      (diffB body.calories cur.calories = true ∧ f = "calories") ∨
      (diffB body.protein_g cur.protein_g = true ∧ f = "protein_g") ∨
      (diffB body.carbs_g cur.carbs_g = true ∧ f = "carbs_g") ∨
      (diffB body.fat_g cur.fat_g = true ∧ f = "fat_g") ∨
      (diffB body.fiber_g cur.fiber_g = true ∧ f = "fiber_g") := by
  unfold patchedOverrides
  simp only [mem_condPush, or_assoc]

/-- The overridden-fields list never acquires duplicates. -/
theorem nodup_patchedOverrides (cur : StoredItem) (body : PatchBody)
    (h : (cur.override_fields.getD []).Nodup) :
    (patchedOverrides cur body).Nodup := by
  unfold patchedOverrides
  exact nodup_condPush (nodup_condPush (nodup_condPush (nodup_condPush
    (nodup_condPush (nodup_condPush h)))))

/-- A validation failure makes the handler return an error before any
write. -/
theorem patchItem_error_of_validate {body : PatchBody} {m : String}
    (now : ℤ) (cur : StoredItem) (h : validatePatch body = some m) :
    patchItem now cur body = .error m := by
  simp [patchItem, h]

/-- Any failing validation check prevents the ok result. -/
theorem patchItem_not_ok {body : PatchBody} (now : ℤ) (cur : StoredItem)
    (h : validatePatch body ≠ none) :
    ∀ it, patchItem now cur body ≠ .ok it := by
  intro it hok
  rcases hv : validatePatch body with _ | m
  · exact h hv
  · rw [patchItem_error_of_validate now cur hv] at hok
    exact Except.noConfusion hok

/-- A negative provided protein, carbs, fat or fiber value fails
validation. -/
theorem validatePatch_ne_none_of_negative {body : PatchBody}
    (h : presentNegative body.protein_g = true ∨ presentNegative body.carbs_g = true ∨
      presentNegative body.fat_g = true ∨ presentNegative body.fiber_g = true) :
    validatePatch body ≠ none := by
  unfold validatePatch
  split_ifs with h1 h2 h3 h4 h5 <;> simp_all

/-- C7: the handler rejects the whole patch with a validation error and
performs no write whenever a provided calories value is below 5 or a
provided protein, carbs, fat or fiber value is negative; calories exactly
5 passes validation while 3 is rejected. -/
theorem patch_validation_floor (now : ℤ) (cur : StoredItem) (body : PatchBody) :
    (∀ c, body.calories = some c → c < 5 →
      patchItem now cur body = .error "Calories must be at least 5") ∧
    (∀ p, body.protein_g = some p → p < 0 →
      ∃ m, patchItem now cur body = .error m) ∧
    (∀ x, body.carbs_g = some x → x < 0 →
      ∃ m, patchItem now cur body = .error m) ∧
    (∀ x, body.fat_g = some x → x < 0 →
      ∃ m, patchItem now cur body = .error m) ∧
    (∀ x, body.fiber_g = some x → x < 0 →
      ∃ m, patchItem now cur body = .error m) ∧
    (validatePatch body ≠ none → ∀ it, patchItem now cur body ≠ .ok it) ∧
    patchItem now cur { emptyPatch with calories := some 5 } =
      .ok (applyPatch now cur { emptyPatch with calories := some 5 }) ∧
    patchItem now cur { emptyPatch with calories := some 3 } =
      .error "Calories must be at least 5" := by
  have herr : ∀ {b : PatchBody}, validatePatch b ≠ none →
      ∃ m, patchItem now cur b = .error m := by
    intro b hb
    rcases hv : validatePatch b with _ | m
    · exact absurd hv hb
    · exact ⟨m, patchItem_error_of_validate now cur hv⟩
  refine ⟨?_, ?_, ?_, ?_, ?_, patchItem_not_ok now cur, ?_, ?_⟩
  · intro c hc hlt
    apply patchItem_error_of_validate now cur
    unfold validatePatch
    rw [if_pos]
    rw [hc]
    simp [hlt]
  · intro p hp hneg
    exact herr (validatePatch_ne_none_of_negative
      (Or.inl (by simp [presentNegative, hp, hneg])))
  · intro x hx hneg
    exact herr (validatePatch_ne_none_of_negative
      (Or.inr (Or.inl (by simp [presentNegative, hx, hneg]))))
  · intro x hx hneg
    exact herr (validatePatch_ne_none_of_negative
      (Or.inr (Or.inr (Or.inl (by simp [presentNegative, hx, hneg])))))
  · intro x hx hneg
    exact herr (validatePatch_ne_none_of_negative
      (Or.inr (Or.inr (Or.inr (by simp [presentNegative, hx, hneg])))))
  · have hv : validatePatch { emptyPatch with calories := some 5 } = none := by
      norm_num [validatePatch, presentNegative, emptyPatch]
    simp [patchItem, hv]
  · apply patchItem_error_of_validate now cur
    norm_num [validatePatch, presentNegative, emptyPatch]

/-- C7 witness: the validation-floor theorem applied at a concrete body
with calories 3. -/
theorem patch_validation_floor_witness :
    patchItem 0 sampleItem { emptyPatch with calories := some 3 } =
      .error "Calories must be at least 5" := by
  have h := patch_validation_floor 0 sampleItem { emptyPatch with calories := some 3 }
  exact h.1 3 rfl (by norm_num)

/-- C6 counterexample: on a validated patch the stored bounds are not set
to exactly oldBound x newValue/oldValue - the handler rounds (calories to
the nearest integer), and a fiber override leaves the fiber bounds
untouched. Overriding calories 200 -> 99 on bounds 180/220 stores
calories_low 89, not 89.1; overriding fiber 5 -> 10 leaves fiber_low at 4,
not 8. -/
theorem override_rescale_counterexample :
    validatePatch { emptyPatch with calories := some 99, fiber_g := some 10 } = none ∧
    (applyPatch 1 sampleItem
        { emptyPatch with calories := some 99, fiber_g := some 10 }).calories_low = 89 ∧
    sampleItem.calories_low * (99 / 200) = 891 / 10 ∧
    (89 : ℚ) ≠ 891 / 10 ∧
    (applyPatch 1 sampleItem
        { emptyPatch with calories := some 99, fiber_g := some 10 }).fiber_g = 10 ∧
    (applyPatch 1 sampleItem
        { emptyPatch with calories := some 99, fiber_g := some 10 }).fiber_low = 4 ∧
    sampleItem.fiber_low * (10 / 5) = 8 ∧ (4 : ℚ) ≠ 8 := by
  refine ⟨?_, ?_, ?_, ?_, ?_, ?_, ?_, ?_⟩ <;>
    norm_num [validatePatch, presentNegative, emptyPatch, applyPatch, sampleItem, jsRound]

/-- C6 (amended): for a patch that passes validation, each nutrient field
present with a differing value has its point value replaced and its
low/high bounds rescaled by newValue/oldValue (ratio 1 when the old value
is not positive) and then rounded - calories bounds to the nearest
integer, protein/carbs/fat bounds to one decimal; a fat override rescales
saturated and unsaturated fat the same way; a fiber override replaces
only the point value; the field name is recorded idempotently (no
duplicates arise) and the item is marked as overridden; the spec example
calories 200 -> 100 with bounds 180/220 yields 90/110 exactly. -/
theorem override_rescales_with_rounding (now : ℤ) (cur : StoredItem)
    (body : PatchBody) (hv : validatePatch body = none) :
    (applyPatch now cur body).has_override = true ∧
    (∀ v, body.calories = some v → v ≠ cur.calories →
      (applyPatch now cur body).calories = v ∧
      (applyPatch now cur body).calories_low =
        jsRound (cur.calories_low * (if cur.calories > 0 then v / cur.calories else 1)) ∧
      (applyPatch now cur body).calories_high =
        jsRound (cur.calories_high * (if cur.calories > 0 then v / cur.calories else 1)) ∧
      "calories" ∈ patchedOverrides cur body) ∧
    (∀ v, body.protein_g = some v → v ≠ cur.protein_g →
      (applyPatch now cur body).protein_g = v ∧
      (applyPatch now cur body).protein_low =
        round1 (cur.protein_low * (if cur.protein_g > 0 then v / cur.protein_g else 1)) ∧
      (applyPatch now cur body).protein_high =
        round1 (cur.protein_high * (if cur.protein_g > 0 then v / cur.protein_g else 1)) ∧
      "protein_g" ∈ patchedOverrides cur body) ∧
    (∀ v, body.carbs_g = some v → v ≠ cur.carbs_g →
      (applyPatch now cur body).carbs_g = v ∧
      (applyPatch now cur body).carbs_low =
        round1 (cur.carbs_low * (if cur.carbs_g > 0 then v / cur.carbs_g else 1)) ∧
      (applyPatch now cur body).carbs_high =
        round1 (cur.carbs_high * (if cur.carbs_g > 0 then v / cur.carbs_g else 1)) ∧
      "carbs_g" ∈ patchedOverrides cur body) ∧
    (∀ v, body.fat_g = some v → v ≠ cur.fat_g →
      (applyPatch now cur body).fat_g = v ∧
      (applyPatch now cur body).fat_low =
        round1 (cur.fat_low * (if cur.fat_g > 0 then v / cur.fat_g else 1)) ∧
      (applyPatch now cur body).fat_high =
        round1 (cur.fat_high * (if cur.fat_g > 0 then v / cur.fat_g else 1)) ∧
      (applyPatch now cur body).saturated_fat_g =
        round1 (cur.saturated_fat_g * (if cur.fat_g > 0 then v / cur.fat_g else 1)) ∧
      (applyPatch now cur body).unsaturated_fat_g =
        round1 (cur.unsaturated_fat_g * (if cur.fat_g > 0 then v / cur.fat_g else 1)) ∧
      "fat_g" ∈ patchedOverrides cur body) ∧
    (∀ v, body.fiber_g = some v → v ≠ cur.fiber_g →
      (applyPatch now cur body).fiber_g = v ∧
      (applyPatch now cur body).fiber_low = cur.fiber_low ∧
      (applyPatch now cur body).fiber_high = cur.fiber_high ∧
      "fiber_g" ∈ patchedOverrides cur body) ∧
    ((cur.override_fields.getD []).Nodup → (patchedOverrides cur body).Nodup) ∧
    (applyPatch 1 sampleItem { emptyPatch with calories := some 100 }).calories_low = 90 ∧
    (applyPatch 1 sampleItem { emptyPatch with calories := some 100 }).calories_high = 110 := by
  refine ⟨rfl, ?_, ?_, ?_, ?_, ?_, nodup_patchedOverrides cur body, ?_, ?_⟩
  · intro v hveq hne
    refine ⟨?_, ?_, ?_, ?_⟩ <;>
      simp [applyPatch, hveq, hne, mem_patchedOverrides, diffB_some]
  · intro v hveq hne
    refine ⟨?_, ?_, ?_, ?_⟩ <;>
      simp [applyPatch, hveq, hne, mem_patchedOverrides, diffB_some]
  · intro v hveq hne
    refine ⟨?_, ?_, ?_, ?_⟩ <;>
      simp [applyPatch, hveq, hne, mem_patchedOverrides, diffB_some]
  · intro v hveq hne
    refine ⟨?_, ?_, ?_, ?_, ?_, ?_⟩ <;>
      simp [applyPatch, hveq, hne, mem_patchedOverrides, diffB_some]
  · intro v hveq hne
    refine ⟨?_, ?_, ?_, ?_⟩ <;>
      simp [applyPatch, hveq, hne, mem_patchedOverrides, diffB_some]
  · norm_num [applyPatch, emptyPatch, sampleItem, jsRound]
  · norm_num [applyPatch, emptyPatch, sampleItem, jsRound]

/-- C6 witness: the amended override theorem applied at the sample row and
the calories 200 -> 100 patch of the spec. -/
theorem override_rescales_with_rounding_witness :
    (applyPatch 1 sampleItem { emptyPatch with calories := some 100 }).has_override = true := by
  have h := override_rescales_with_rounding 1 sampleItem
    { emptyPatch with calories := some 100 }
    (by norm_num [validatePatch, presentNegative, emptyPatch])
  exact h.1

/-- C10 counterexample: a validated patch naming only fat_g changes
saturated_fat_g and unsaturated_fat_g, nutrient fields not named in the
patch, so the frame claim fails as stated. -/
theorem patch_frame_counterexample :
    validatePatch { emptyPatch with fat_g := some 10 } = none ∧
    (applyPatch 1 sampleItem { emptyPatch with fat_g := some 10 }).saturated_fat_g = 4 ∧
    sampleItem.saturated_fat_g = 2 ∧ ((4 : ℚ) ≠ 2) ∧
    (applyPatch 1 sampleItem { emptyPatch with fat_g := some 10 }).unsaturated_fat_g = 6 ∧
    sampleItem.unsaturated_fat_g = 3 ∧ ((6 : ℚ) ≠ 3) := by
  refine ⟨?_, ?_, ?_, ?_, ?_, ?_, ?_⟩ <;>
    norm_num [validatePatch, presentNegative, emptyPatch, applyPatch, sampleItem,
      round1, jsRound]

/-- C10 (amended): every validated patch unconditionally sets has_override
and refreshes updated_at - including a no-op patch whose supplied values
equal the stored ones - and override_fields gains exactly the names of
fields whose value differed; every nutrient field not named in the patch
keeps its stored value, except that saturated and unsaturated fat are
rescaled when total fat is overridden (and the low/high bounds of a
patched field are rescaled with it); fiber bounds and sodium are never
written. -/
theorem patch_frame_and_flags (now : ℤ) (cur : StoredItem)
    (body : PatchBody) (hv : validatePatch body = none) :
    (applyPatch now cur body).has_override = true ∧
    (applyPatch now cur body).updated_at = now ∧
    (applyPatch now cur body).override_fields = some (patchedOverrides cur body) ∧
    (∀ f, f ∈ patchedOverrides cur body ↔
      f ∈ cur.override_fields.getD [] ∨
      (diffB body.food_name cur.food_name = true ∧ f = "food_name") ∨
      (diffB body.calories cur.calories = true ∧ f = "calories") ∨
      (diffB body.protein_g cur.protein_g = true ∧ f = "protein_g") ∨
      (diffB body.carbs_g cur.carbs_g = true ∧ f = "carbs_g") ∨
      (diffB body.fat_g cur.fat_g = true ∧ f = "fat_g") ∨
      (diffB body.fiber_g cur.fiber_g = true ∧ f = "fiber_g")) ∧
    (body.food_name = none → (applyPatch now cur body).food_name = cur.food_name) ∧
    (body.calories = none →
      (applyPatch now cur body).calories = cur.calories ∧
      (applyPatch now cur body).calories_low = cur.calories_low ∧
      (applyPatch now cur body).calories_high = cur.calories_high) ∧
    (body.protein_g = none →
      (applyPatch now cur body).protein_g = cur.protein_g ∧
      (applyPatch now cur body).protein_low = cur.protein_low ∧
      (applyPatch now cur body).protein_high = cur.protein_high) ∧
    (body.carbs_g = none →
      (applyPatch now cur body).carbs_g = cur.carbs_g ∧
      (applyPatch now cur body).carbs_low = cur.carbs_low ∧
      (applyPatch now cur body).carbs_high = cur.carbs_high) ∧
    (body.fat_g = none →
      (applyPatch now cur body).fat_g = cur.fat_g ∧
      (applyPatch now cur body).fat_low = cur.fat_low ∧
      (applyPatch now cur body).fat_high = cur.fat_high ∧
      (applyPatch now cur body).saturated_fat_g = cur.saturated_fat_g ∧
      (applyPatch now cur body).unsaturated_fat_g = cur.unsaturated_fat_g) ∧
    (body.fiber_g = none → (applyPatch now cur body).fiber_g = cur.fiber_g) ∧
    (applyPatch now cur body).fiber_low = cur.fiber_low ∧
    (applyPatch now cur body).fiber_high = cur.fiber_high ∧
    (applyPatch now cur body).sodium_mg = cur.sodium_mg ∧
    (∀ v, body.calories = some v → v = cur.calories →
      (applyPatch now cur body).calories = cur.calories ∧
      (applyPatch now cur body).calories_low = cur.calories_low ∧
      (applyPatch now cur body).calories_high = cur.calories_high) := by
  refine ⟨rfl, rfl, rfl, mem_patchedOverrides cur body, ?_, ?_, ?_, ?_, ?_, ?_,
    rfl, rfl, rfl, ?_⟩
  · intro hnone
    simp [applyPatch, hnone]
  · intro hnone
    refine ⟨?_, ?_, ?_⟩ <;> simp [applyPatch, hnone]
  · intro hnone
    refine ⟨?_, ?_, ?_⟩ <;> simp [applyPatch, hnone]
  · intro hnone
    refine ⟨?_, ?_, ?_⟩ <;> simp [applyPatch, hnone]
  · intro hnone
    refine ⟨?_, ?_, ?_, ?_, ?_⟩ <;> simp [applyPatch, hnone]
  · intro hnone
    simp [applyPatch, hnone]
  · intro v hveq heq
    refine ⟨?_, ?_, ?_⟩ <;> simp [applyPatch, hveq, heq]

/-- C10 witness: the frame theorem applied at the sample row and a no-op
patch supplying the stored calories value. -/
theorem patch_frame_and_flags_witness :
    (applyPatch 7 sampleItem { emptyPatch with calories := some 200 }).has_override = true ∧
    (applyPatch 7 sampleItem { emptyPatch with calories := some 200 }).updated_at = 7 := by
  have h := patch_frame_and_flags 7 sampleItem { emptyPatch with calories := some 200 }
    (by norm_num [validatePatch, presentNegative, emptyPatch])
  exact ⟨h.1, h.2.1⟩

/-- C8 counterexample: the second DailySummary copy uses a sodium limit of
2750 mg, not 2300 mg; and a zero target-calorie value is replaced by the
2000 default, so the saturated fat limit is 22, not round(10% of 0 / 9). -/
theorem thresholds_counterexample :
    (getRecommendationsB (some 2000) (some Sex.male)).sodium.limit = 2750 ∧
    ((2750 : ℚ) ≠ 2300) ∧
    (getRecommendationsA (some 0) (some Sex.male)).saturatedFat.limit = 22 ∧
    jsRound ((0 : ℚ) * (10 / 100) / 9) = 0 ∧ ((22 : ℚ) ≠ 0) := by
  refine ⟨rfl, by norm_num, ?_, ?_, by norm_num⟩ <;>
    norm_num [getRecommendationsA, calsOrDefault, jsRound]

/-- C8 (amended): both getRecommendations copies are pure functions of
(targetCalories, sex); the saturated fat limit is round(10% of target
calories / 9) with an absent or zero target defaulting to 2000; the added
sugar limit is 36 g male / 25 g female and the fiber target 38 g male /
25 g female in both copies; the sodium thresholds differ between the two
copies: 2300 mg limit with 1500 mg warning in one, 2750 mg limit with
2300 mg warning in the other. -/
theorem thresholds_pure_functions (tc : Option ℚ) (sex : Option Sex) :
    (getRecommendationsA tc sex).saturatedFat.limit =
      jsRound (calsOrDefault tc * (10 / 100) / 9) ∧
    (getRecommendationsB tc sex).saturatedFat.limit =
      jsRound (calsOrDefault tc * (10 / 100) / 9) ∧
    (∀ c : ℚ, c ≠ 0 → calsOrDefault (some c) = c) ∧
    calsOrDefault none = 2000 ∧
    calsOrDefault (some 0) = 2000 ∧
    (getRecommendationsA tc sex).sodium.limit = 2300 ∧
    (getRecommendationsA tc sex).sodium.warning = some 1500 ∧
    (getRecommendationsB tc sex).sodium.limit = 2750 ∧
    (getRecommendationsB tc sex).sodium.warning = some 2300 ∧
    (getRecommendationsA tc sex).addedSugar.limit =
      (if sex = some Sex.male then 36 else 25) ∧
    (getRecommendationsA tc sex).fiber.target =
      (if sex = some Sex.male then 38 else 25) ∧
    (getRecommendationsB tc sex).addedSugar.limit =
      (if sex = some Sex.male then 36 else 25) ∧
    (getRecommendationsB tc sex).fiber.target =
      (if sex = some Sex.male then 38 else 25) := by
  refine ⟨rfl, rfl, ?_, rfl, by norm_num [calsOrDefault], rfl, rfl, rfl, rfl,
    rfl, rfl, rfl, rfl⟩
  intro c hc
  simp [calsOrDefault, hc]

/-- C8 witness: the thresholds theorem applied at a concrete nonzero
target. -/
theorem thresholds_pure_functions_witness :
    calsOrDefault (some 1800) = 1800 := by
  have h := thresholds_pure_functions (some 1800) (some Sex.female)
  exact h.2.2.1 1800 (by norm_num)

/-- C9 counterexample: with an unknown IANA identifier the resolver does
not return the America/New_York fallback date - the conversion fails -
while an absent timezone does produce the fallback date. -/
theorem timezone_fallback_counterexample :
    resolveDate tzdb none 0 none =
      .ok { resolved_date := "1969-12-31", explicit_date_in_text := false } ∧
    resolveDate tzdb none 0 (some "Not/AZone") ≠
      .ok { resolved_date := "1969-12-31", explicit_date_in_text := false } ∧
    resolveDate tzdb none 0 (some "Not/AZone") =
      .error "RangeError: Invalid time zone specified" := by
  refine ⟨rfl, ?_, rfl⟩
  intro h
  rw [show resolveDate tzdb none 0 (some "Not/AZone") =
    Except.error "RangeError: Invalid time zone specified" from rfl] at h
  exact Except.noConfusion h

/-- C9 (amended): resolveDate defaults only an absent timezone argument to
the fixed fallback America/New_York; an unknown IANA identifier is passed
through to the timezone conversion, which fails on it rather than
silently defaulting. -/
theorem timezone_default_only_when_absent
    (db : TzDatabase) (e : Option String) (t : ℤ) (s : String)
    (hs : tzdb s = none) :
    resolveDate db e t none = resolveDate db e t (some DEFAULT_TIMEZONE) ∧
    DEFAULT_TIMEZONE = "America/New_York" ∧
    resolveDate tzdb none t (some s) =
      .error "RangeError: Invalid time zone specified" := by
  refine ⟨?_, rfl, ?_⟩
  · cases e with
    | none => rfl
    | some x =>
      by_cases hx : isValidDateString x = true <;>
        simp [resolveDate, resolveFromTimestamp, hx]
  · simp [resolveDate, resolveFromTimestamp, hs]

/-- C9 witness: the default-only-when-absent theorem applied at a concrete
unknown zone name. -/
theorem timezone_default_only_when_absent_witness :
    resolveDate tzdb none 0 (some "Not/AZone") =
      .error "RangeError: Invalid time zone specified" := by
  have h := timezone_default_only_when_absent tzdb none 0 "Not/AZone" rfl
  exact h.2.2

end Nutrition
